import Mathlib

/-!
# Verification of the onnxruntime training Yield operator and ATen config registry

Shallow embedding of:
* `orttraining/training_ops/cuda/controlflow/yield.cc` (`YieldOp::ComputeInternal`)
* `orttraining/training_ops/cpu/aten_ops/aten_op_config.h`
  (`ATenOperatorConfig::TryGetValue`, `ATenOperatorConfig::TryGetArrayValue`,
   `ATenOperatorConfigs::GetConfig`)

Tensor values (`OrtValue` in the source) are opaque handles; the embedding is
parametric in their type `α`.  `YieldOp::ComputeInternal` is embedded as a pure
function producing the ordered trace of externally visible operations it
performs (device synchronization, posting forward results to the `OrtTasks`
channel, waiting for backward inputs, binding output slots) together with its
outcome (a returned `Status`, or a thrown `OnnxRuntimeException`, which is what
both `ORT_THROW` and a failed `ORT_ENFORCE` produce).
-/

namespace OnnxRuntime

/-- The `onnxruntime::common::Status` values `ComputeInternal` can return:
`Status::OK()` or an error status carrying a message (as produced by
`CUDA_RETURN_IF_ERROR` when `cudaDeviceSynchronize` fails). -/
inductive StatusM where
  | ok : StatusM
  | error (msg : String) : StatusM
  deriving DecidableEq, Repr

/-- `Status.IsOK()`. -/
def StatusM.isOK : StatusM → Bool
  | .ok => true
  | .error _ => false

/-- How one call of `YieldOp::ComputeInternal` ends: either it returns a
`Status`, or it throws an `OnnxRuntimeException` (the mechanism shared by
`ORT_THROW` and a failing `ORT_ENFORCE`) carrying a message. -/
inductive Outcome where
  | ret (s : StatusM) : Outcome
  | threw (msg : String) : Outcome
  deriving DecidableEq, Repr

/-- The externally visible operations performed by `YieldOp::ComputeInternal`,
in program order:
* `deviceSync ok` — the `cudaDeviceSynchronize()` barrier, with its result;
* `postForward s batch` — `OrtTasks::GetInstance().SetForwardOutputs(s, batch)`;
* `awaitBackward terminate batch` —
  `OrtTasks::GetInstance().WaitForBackwardInputs()` returning the pair
  `(terminate, batch)`;
* `bindOutput i v` — `ctx_internal->SetOutputMLValue(i, v)`. -/
inductive YieldEvent (α : Type) where
  | deviceSync (ok : Bool) : YieldEvent α
  | postForward (s : StatusM) (batch : List α) : YieldEvent α
  | awaitBackward (terminate : Bool) (batch : List α) : YieldEvent α
  | bindOutput (i : Nat) (v : α) : YieldEvent α
  deriving DecidableEq, Repr

namespace YieldEvent

/-- Is this event a post to the forward-results slot? -/
def isPostForward : YieldEvent α → Bool
  | .postForward _ _ => true
  | _ => false

/-- Is this event the wait on the backward-inputs slot? -/
def isAwaitBackward : YieldEvent α → Bool
  | .awaitBackward _ _ => true
  | _ => false

/-- Is this event a completed device synchronization barrier? -/
def isSyncDone : YieldEvent α → Bool
  | .deviceSync ok => ok
  | _ => false

/-- Does this event suspend the executing thread on the rendezvous channel?
Only `WaitForBackwardInputs` blocks on the `OrtTasks` channel; the device
barrier waits on the accelerator stream, and posting and binding never wait. -/
def blocksOnChannel : YieldEvent α → Bool
  | .awaitBackward _ _ => true
  | _ => false

end YieldEvent

/-- The execution environment of one `YieldOp::ComputeInternal` call:
the kernel context's inputs (`GetInputMLValue(0..InputCount-1)`), its declared
`OutputCount()`, whether `cudaDeviceSynchronize()` succeeds, and the pair
`(terminate, values)` that `WaitForBackwardInputs()` delivers. -/
structure YieldEnv (α : Type) where
  inputs : List α
  outputCount : Nat
  syncOk : Bool
  terminate : Bool
  backwardInputs : List α

/-- The message of the `ORT_THROW` on the terminate path (yield.cc line 45). -/
def terminateMsg : String :=
  "Terminating backward run, since the terminate is set to true."

/-- The message of the exception a failing `ORT_ENFORCE` raises for the arity
check (yield.cc line 47); the macro stringizes its condition. -/
def arityEnforceMsg : String :=
  "backward_inputs.second.size() == static_cast<size_t>(ctx->OutputCount())"

namespace YieldOp

/-- `YieldOp::ComputeInternal` (yield.cc lines 24-54), embedded as the trace of
its externally visible operations and its outcome.

Source structure:
1. snapshot all inputs into `forward_outputs` (lines 27-31);
2. `CUDA_RETURN_IF_ERROR(cudaDeviceSynchronize())` (line 35) — on failure the
   function returns the error status at once;
3. `SetForwardOutputs(Status::OK(), forward_outputs)` (line 38);
4. `WaitForBackwardInputs()` (line 41), giving `(terminate, values)`;
5. if `terminate`: `ORT_THROW(...)` (line 45);
6. else `ORT_ENFORCE(values.size() == OutputCount())` (line 47), then
   `SetOutputMLValue(i, values[i])` for `i = 0 .. OutputCount()-1`
   (lines 48-50), then `return Status::OK()` (line 53).

The bind loop indexes `backward_inputs.second[i]` for `i < OutputCount()`;
`getD` supplies `default` for the out-of-range accesses C++ would leave
undefined, which the preceding `ORT_ENFORCE` makes unreachable. -/
def ComputeInternal [Inhabited α] (env : YieldEnv α) :
    List (YieldEvent α) × Outcome :=
  let forward_outputs := env.inputs
  if env.syncOk = false then
    ([.deviceSync false], .ret (.error "cudaDeviceSynchronize"))
  else
    let pre : List (YieldEvent α) :=
      [.deviceSync true, .postForward .ok forward_outputs,
       .awaitBackward env.terminate env.backwardInputs]
    if env.terminate then
      (pre, .threw terminateMsg)
    else if env.backwardInputs.length = env.outputCount then
      (pre ++ (List.range env.outputCount).map
          (fun i => .bindOutput i (env.backwardInputs.getD i default)),
       .ret .ok)
    else
      (pre, .threw arityEnforceMsg)

end YieldOp

/-- The output bindings recorded in a trace, in the order they were made:
the `(slot, value)` arguments of each `SetOutputMLValue` call. -/
def boundOutputs (trace : List (YieldEvent α)) : List (Nat × α) :=
  trace.filterMap (fun e => match e with
    | .bindOutput i v => some (i, v)
    | _ => none)

/-- The forward batches posted in a trace: the `(status, values)` arguments of
each `SetForwardOutputs` call. -/
def postedForward (trace : List (YieldEvent α)) : List (StatusM × List α) :=
  trace.filterMap (fun e => match e with
    | .postForward s b => some (s, b)
    | _ => none)

/-- Modelled from the spec: the `OrtTasks` forward slot and the step driver
(`orttraining/training_ops/cpu/controlflow/ort_tasks.h` and the caller that
runs the graph step are not part of this excerpt).  Per the spec, the driver's
`awaitForwardResults` returns the batch the operator posted via
`SetForwardOutputs`; and "if the accelerator synchronization barrier itself
fails (device error), the operator must propagate that failure as the step's
forward status instead of attempting the handoff with partial data", so when
the graph run ends without a post, the step's final status is delivered as a
failed forward batch with no tensor payload. -/
def awaitForwardResults [Inhabited α] (env : YieldEnv α) : StatusM × List α :=
  match postedForward (YieldOp.ComputeInternal env).1 with
  | b :: _ => b
  | [] =>
    match (YieldOp.ComputeInternal env).2 with
    | .ret s => (s, [])
    | .threw m => (.error m, [])

/-! ## ATen operator configuration
(`orttraining/training_ops/cpu/aten_ops/aten_op_config.h`)

`std::unordered_map` fields are embedded as association lists queried with
`List.lookup` (the C++ maps have unique keys; `find` returns the entry for the
key when present).  The stored scalar payload types `int`, `float`, `bool` are
opaque type parameters `I`, `F`, `B`: the code only stores and copies them. -/

/-- `OutputTypeInferKind` (aten_op_config.h lines 19-22). -/
inductive OutputTypeInferKind where
  | PROPAGATE_FROM_INPUT
  | CONCRETE_TYPE
  deriving DecidableEq, Repr

/-- `BackwardInputSourceKind` (aten_op_config.h lines 25-29). -/
inductive BackwardInputSourceKind where
  | GRAD_OUTPUT
  | FORWARD_INPUT
  | FORWARD_OUTPUT
  deriving DecidableEq, Repr

/-- `ArgumentKind` (aten_op_config.h lines 32-41). -/
inductive ArgumentKind where
  | TENSOR
  | INT
  | FLOAT
  | BOOL
  | INT_ARRAY
  | FLOAT_ARRAY
  | BOOL_ARRAY
  deriving DecidableEq, Repr

/-- `ATenOperatorConfig` (aten_op_config.h lines 44-117), fields 1:1 with the
struct; `i` in `forward_output_type_infer_configs` is a C++ `int`. -/
structure ATenOperatorConfig (I F B : Type) where
  op_name : String
  backward_op_name : String
  forward_argument_configs : List (ArgumentKind × String)
  backward_argument_configs : List (ArgumentKind × String)
  backward_input_source_configs : List (BackwardInputSourceKind × Nat)
  forward_output_type_infer_configs : List (OutputTypeInferKind × Int)
  gradient_input_indices : List Nat
  default_int_values : List (String × I)
  default_float_values : List (String × F)
  default_bool_values : List (String × B)
  default_int_array_values : List (String × List I)
  default_float_array_values : List (String × List F)
  default_bool_array_values : List (String × List B)

namespace ATenOperatorConfig

variable {I F B : Type}

/-- `TryGetValue<T>` instantiated at `T = int` (aten_op_config.h lines 66-90):
`std::is_same<T, int>::value` holds, so only `default_int_values` is consulted;
on a hit `has_default_value` becomes true and `value` is overwritten with the
stored default, otherwise `value` is left as passed in. -/
def TryGetValueInt (c : ATenOperatorConfig I F B) (name : String) (value : I) :
    Bool × I :=
  match c.default_int_values.lookup name with
  | some v => (true, v)
  | none => (false, value)

/-- `TryGetValue<T>` instantiated at `T = float`: the `int` test fails and the
`float` test holds, so only `default_float_values` is consulted. -/
def TryGetValueFloat (c : ATenOperatorConfig I F B) (name : String)
    (value : F) : Bool × F :=
  match c.default_float_values.lookup name with
  | some v => (true, v)
  | none => (false, value)

/-- `TryGetValue<T>` instantiated at `T = bool`: only the `bool` test holds,
so only `default_bool_values` is consulted. -/
def TryGetValueBool (c : ATenOperatorConfig I F B) (name : String)
    (value : B) : Bool × B :=
  match c.default_bool_values.lookup name with
  | some v => (true, v)
  | none => (false, value)

/-- `TryGetValue<T>` for any `T` outside `int`/`float`/`bool`: every
`std::is_same` test is false, so `has_default_value` stays `false` and the
out-parameter is never assigned. -/
def TryGetValueOther {T : Type} (_ : ATenOperatorConfig I F B) (_ : String)
    (value : T) : Bool × T :=
  (false, value)

/-- `TryGetArrayValue<T>` instantiated at `T = int` (aten_op_config.h lines
92-116): on a hit the stored array is copied through `back_inserter(value)`,
i.e. appended to the caller's vector; on a miss `value` is untouched. -/
def TryGetArrayValueInt (c : ATenOperatorConfig I F B) (name : String)
    (value : List I) : Bool × List I :=
  match c.default_int_array_values.lookup name with
  | some arr => (true, value ++ arr)
  | none => (false, value)

/-- `TryGetArrayValue<T>` instantiated at `T = float`. -/
def TryGetArrayValueFloat (c : ATenOperatorConfig I F B) (name : String)
    (value : List F) : Bool × List F :=
  match c.default_float_array_values.lookup name with
  | some arr => (true, value ++ arr)
  | none => (false, value)

/-- `TryGetArrayValue<T>` instantiated at `T = bool`. -/
def TryGetArrayValueBool (c : ATenOperatorConfig I F B) (name : String)
    (value : List B) : Bool × List B :=
  match c.default_bool_array_values.lookup name with
  | some arr => (true, value ++ arr)
  | none => (false, value)

end ATenOperatorConfig

/-- `ATenOperatorConfigs` (aten_op_config.h lines 119-136): the registry's
`configs_` map from operator name to stored configuration. -/
structure ATenOperatorConfigs (I F B : Type) where
  configs : List (String × ATenOperatorConfig I F B)

/-- `ATenOperatorConfigs::GetConfig` (aten_op_config.h lines 126-129):
`find` the name in `configs_`; return the address of the stored entry on a
hit, `nullptr` on a miss (`Option` models the nullable pointer). -/
def ATenOperatorConfigs.GetConfig {I F B : Type}
    (r : ATenOperatorConfigs I F B) (op_name : String) :
    Option (ATenOperatorConfig I F B) :=
  r.configs.lookup op_name

/-- A concrete configuration used to instantiate the registry theorems
(scalar payloads: `Int` for C++ `int`, `Int` as an opaque stand-in for the
`float` payload, `Bool` for `bool`). -/
def sampleConfig : ATenOperatorConfig Int Int Bool where
  op_name := "aten::embedding"
  backward_op_name := "aten::embedding_backward"
  forward_argument_configs :=
    [(ArgumentKind.TENSOR, "weight"), (ArgumentKind.TENSOR, "indices"),
     (ArgumentKind.INT, "padding_idx"), (ArgumentKind.BOOL, "scale_grad_by_freq"),
     (ArgumentKind.BOOL, "sparse")]
  backward_argument_configs := [(ArgumentKind.TENSOR, "grad")]
  backward_input_source_configs := [(BackwardInputSourceKind.GRAD_OUTPUT, 0)]
  forward_output_type_infer_configs :=
    [(OutputTypeInferKind.PROPAGATE_FROM_INPUT, 0)]
  gradient_input_indices := [0]
  default_int_values := [("padding_idx", -1)]
  default_float_values := []
  default_bool_values := [("scale_grad_by_freq", false), ("sparse", false)]
  default_int_array_values := [("output_size", [0, 0])]
  default_float_array_values := []
  default_bool_array_values := []

/-- A concrete one-entry registry used to instantiate the lookup theorems. -/
def sampleRegistry : ATenOperatorConfigs Int Int Bool where
  configs := [("aten::embedding", sampleConfig)]

/-! ## Shared lemmas -/

theorem boundOutputs_append {α : Type} (t₁ t₂ : List (YieldEvent α)) :
    boundOutputs (t₁ ++ t₂) = boundOutputs t₁ ++ boundOutputs t₂ := by
  simp [boundOutputs]

theorem boundOutputs_bind_map {α : Type} (l : List Nat) (f : Nat → α) :
    boundOutputs (l.map (fun i => YieldEvent.bindOutput i (f i))) =
      l.map (fun i => (i, f i)) := by
  induction l with
  | nil => rfl
  | cons a t ih =>
      simpa [boundOutputs, List.filterMap_cons] using ih

theorem range_map_getD_eq_enum {α : Type} [Inhabited α] (l : List α) :
    (List.range l.length).map (fun i => (i, l.getD i default)) = l.enum := by
  apply List.ext_getElem
  · simp
  · intro i h₁ h₂
    simp only [List.getElem_map, List.getElem_range, List.getElem_enum]
    have hi : i < l.length := by simpa using h₂
    simp [List.getD_eq_getElem?_getD, List.getElem?_eq_getElem hi]

theorem lookup_isSome_iff_mem {α β : Type} [BEq α] [LawfulBEq α]
    (l : List (α × β)) (a : α) :
    (l.lookup a).isSome = true ↔ a ∈ l.map Prod.fst := by
  induction l with
  | nil => simp
  | cons p t ih =>
      obtain ⟨k, v⟩ := p
      by_cases h : a = k
      · subst h
        simp [List.lookup_cons]
      · have hbeq : (a == k) = false := by simpa using h
        simp [List.lookup_cons, hbeq, ih, h]

theorem lookup_eq_none_of_not_mem {α β : Type} [BEq α] [LawfulBEq α]
    {l : List (α × β)} {a : α} (h : a ∉ l.map Prod.fst) :
    l.lookup a = none := by
  have := (lookup_isSome_iff_mem l a).not.mpr h
  cases hl : l.lookup a with
  | none => rfl
  | some v => exact absurd (by simp [hl]) this

theorem lookup_mem {α β : Type} [BEq α] [LawfulBEq α]
    {l : List (α × β)} {a : α} {b : β} (h : l.lookup a = some b) :
    (a, b) ∈ l := by
  induction l with
  | nil => simp at h
  | cons p t ih =>
      obtain ⟨k, v⟩ := p
      by_cases hak : a = k
      · subst hak
        simp only [List.lookup_cons, beq_self_eq_true] at h
        simp only [Option.some.injEq] at h
        simp [h]
      · have hbeq : (a == k) = false := by simpa using hak
        simp only [List.lookup_cons, hbeq] at h
        exact List.mem_cons_of_mem _ (ih h)

theorem tryGet_triple {β : Type} (l : List (String × β)) (a : String) (v : β)
    (r : Bool × β)
    (hr : r = match l.lookup a with
      | some d => ((true : Bool), d)
      | none => ((false : Bool), v)) :
    (r.1 = true ↔ a ∈ l.map Prod.fst) ∧
    (∀ d, l.lookup a = some d → r = (true, d)) ∧
    (a ∉ l.map Prod.fst → r = (false, v)) := by
  subst hr
  cases hl : l.lookup a with
  | some d =>
      have hmem : a ∈ l.map Prod.fst :=
        (lookup_isSome_iff_mem l a).mp (by simp [hl])
      refine ⟨by simp [hmem], ?_, fun hn => absurd hmem hn⟩
      intro d2 h2
      cases h2
      rfl
  | none =>
      have hmem : a ∉ l.map Prod.fst := by
        intro hm
        have := (lookup_isSome_iff_mem l a).mpr hm
        simp [hl] at this
      refine ⟨by simp [hmem], ?_, fun _ => rfl⟩
      intro d h2
      cases h2

theorem tryGetArray_triple {β : Type} (l : List (String × List β)) (a : String)
    (v : List β) (r : Bool × List β)
    (hr : r = match l.lookup a with
      | some arr => ((true : Bool), v ++ arr)
      | none => ((false : Bool), v)) :
    (r.1 = true ↔ a ∈ l.map Prod.fst) ∧
    (∀ arr, l.lookup a = some arr → r = (true, v ++ arr)) ∧
    (a ∉ l.map Prod.fst → r = (false, v)) := by
  subst hr
  cases hl : l.lookup a with
  | some arr =>
      have hmem : a ∈ l.map Prod.fst :=
        (lookup_isSome_iff_mem l a).mp (by simp [hl])
      refine ⟨by simp [hmem], ?_, fun hn => absurd hmem hn⟩
      intro a2 h2
      cases h2
      rfl
  | none =>
      have hmem : a ∉ l.map Prod.fst := by
        intro hm
        have := (lookup_isSome_iff_mem l a).mpr hm
        simp [hl] at this
      refine ⟨by simp [hmem], ?_, fun _ => rfl⟩
      intro a2 h2
      cases h2

/-! ## Claims about the Yield operator -/

/-- C1: for every execution of `YieldOp::ComputeInternal` in which the received
backward batch has `terminate = false` and its length equals the operator's
declared output count, element `i` of the batch is bound to output slot `i`
for every `i`, in order, and the operator returns a success status. -/
theorem yieldOp_binds_backward_batch_in_order {α : Type} [Inhabited α]
    (env : YieldEnv α) (hs : env.syncOk = true) (ht : env.terminate = false)
    (hl : env.backwardInputs.length = env.outputCount) :
    (YieldOp.ComputeInternal env).2 = Outcome.ret StatusM.ok ∧
    boundOutputs (YieldOp.ComputeInternal env).1 = env.backwardInputs.enum ∧
    ∀ i : Fin env.backwardInputs.length,
      (boundOutputs (YieldOp.ComputeInternal env).1)[(i : Nat)]? =
        some ((i : Nat), env.backwardInputs[i]) := by
  have hbound : boundOutputs (YieldOp.ComputeInternal env).1 =
      env.backwardInputs.enum := by
    simp only [YieldOp.ComputeInternal, hs, ht, hl, Bool.true_eq_false,
      if_false, if_true, Bool.false_eq_true, if_pos rfl]
    rw [boundOutputs_append, boundOutputs_bind_map, ← hl,
      range_map_getD_eq_enum]
    rfl
  refine ⟨?_, hbound, ?_⟩
  · simp [YieldOp.ComputeInternal, hs, ht, hl]
  · intro i
    rw [hbound]
    simp [List.getElem?_enum, List.getElem?_eq_getElem i.isLt]

/-- Witness for C1: inputs `[1, 2]`, two declared outputs, backward batch
`[5, 6]` with `terminate = false`: both outputs are bound in order and the
operator returns OK. -/
theorem yieldOp_binds_backward_batch_in_order_witness :
    (YieldOp.ComputeInternal (α := Nat) ⟨[1, 2], 2, true, false, [5, 6]⟩).2 =
        Outcome.ret StatusM.ok ∧
      boundOutputs
          (YieldOp.ComputeInternal (α := Nat)
            ⟨[1, 2], 2, true, false, [5, 6]⟩).1 =
        ([5, 6] : List Nat).enum ∧
      ∀ i : Fin ([5, 6] : List Nat).length,
        (boundOutputs
            (YieldOp.ComputeInternal (α := Nat)
              ⟨[1, 2], 2, true, false, [5, 6]⟩).1)[(i : Nat)]? =
          some ((i : Nat), ([5, 6] : List Nat)[i]) :=
  yieldOp_binds_backward_batch_in_order
    ⟨[1, 2], 2, true, false, [5, 6]⟩ rfl rfl rfl

/-- C2: for every execution of `YieldOp::ComputeInternal` in which the received
backward batch has `terminate = true`, no output slot is bound and the call
aborts via the termination throw (`ORT_THROW`), exactly once, whatever the
batch's payload is (the statement quantifies over every payload). -/
theorem yieldOp_terminate_no_binding {α : Type} [Inhabited α]
    (env : YieldEnv α) (hs : env.syncOk = true) (ht : env.terminate = true) :
    boundOutputs (YieldOp.ComputeInternal env).1 = [] ∧
    (YieldOp.ComputeInternal env).2 = Outcome.threw terminateMsg := by
  constructor <;> simp [YieldOp.ComputeInternal, hs, ht, boundOutputs]

/-- Witness for C2: backward batch `[7]` with `terminate = true`: nothing is
bound and the termination exception is thrown. -/
theorem yieldOp_terminate_no_binding_witness :
    boundOutputs
        (YieldOp.ComputeInternal (α := Nat) ⟨[1, 2], 2, true, true, [7]⟩).1 =
      [] ∧
    (YieldOp.ComputeInternal (α := Nat) ⟨[1, 2], 2, true, true, [7]⟩).2 =
      Outcome.threw terminateMsg :=
  yieldOp_terminate_no_binding ⟨[1, 2], 2, true, true, [7]⟩ rfl rfl

/-- C3: for every execution of `YieldOp::ComputeInternal` in which the received
backward batch has `terminate = false` and its length differs from the declared
output count, the `ORT_ENFORCE` protocol-violation exception is raised and no
output slot is bound — in particular no partial binding occurs. -/
theorem yieldOp_arity_mismatch_faults_before_binding {α : Type} [Inhabited α]
    (env : YieldEnv α) (hs : env.syncOk = true) (ht : env.terminate = false)
    (hl : env.backwardInputs.length ≠ env.outputCount) :
    boundOutputs (YieldOp.ComputeInternal env).1 = [] ∧
    (YieldOp.ComputeInternal env).2 = Outcome.threw arityEnforceMsg := by
  constructor <;> simp [YieldOp.ComputeInternal, hs, ht, hl, boundOutputs]

/-- Witness for C3: two declared outputs, backward batch `[5]` of length 1 with
`terminate = false`: the enforce exception is raised, nothing is bound. -/
theorem yieldOp_arity_mismatch_faults_before_binding_witness :
    boundOutputs
        (YieldOp.ComputeInternal (α := Nat) ⟨[1, 2], 2, true, false, [5]⟩).1 =
      [] ∧
    (YieldOp.ComputeInternal (α := Nat) ⟨[1, 2], 2, true, false, [5]⟩).2 =
      Outcome.threw arityEnforceMsg :=
  yieldOp_arity_mismatch_faults_before_binding ⟨[1, 2], 2, true, false, [5]⟩
    rfl rfl (by decide)

/-- C4: the batch the driver's `awaitForwardResults` receives has a failure
status exactly when the device synchronization barrier failed; when the
barrier succeeded, the delivered batch is the success-tagged, complete input
snapshot — the handoff is neither skipped nor attempted with partial data. -/
theorem awaitForwardResults_failure_iff_sync_failed {α : Type} [Inhabited α]
    (env : YieldEnv α) :
    ((awaitForwardResults env).1.isOK = false ↔ env.syncOk = false) ∧
    (env.syncOk = true → awaitForwardResults env = (StatusM.ok, env.inputs)) := by
  cases hs : env.syncOk
  · refine ⟨by simp [awaitForwardResults, postedForward,
      YieldOp.ComputeInternal, hs, StatusM.isOK], ?_⟩
    intro h
    exact absurd h (by simp)
  · have hres : awaitForwardResults env = (StatusM.ok, env.inputs) := by
      cases ht : env.terminate
      · by_cases hl : env.backwardInputs.length = env.outputCount
        · simp [awaitForwardResults, postedForward, YieldOp.ComputeInternal,
            hs, ht, hl]
        · simp [awaitForwardResults, postedForward, YieldOp.ComputeInternal,
            hs, ht, hl]
      · simp [awaitForwardResults, postedForward, YieldOp.ComputeInternal,
          hs, ht]
    refine ⟨?_, fun _ => hres⟩
    rw [hres]
    simp [StatusM.isOK, hs]

/-- Witness for C4, both sides: with a failing barrier the delivered status is
a failure; with a succeeding barrier the delivered batch is `(OK, inputs)`. -/
theorem awaitForwardResults_failure_iff_sync_failed_witness :
    (((awaitForwardResults (α := Nat) ⟨[1, 2], 2, false, false, [5, 6]⟩).1.isOK
          = false ↔ (false : Bool) = false) ∧
      ((false : Bool) = true →
        awaitForwardResults (α := Nat) ⟨[1, 2], 2, false, false, [5, 6]⟩ =
          (StatusM.ok, [1, 2]))) ∧
    (((awaitForwardResults (α := Nat) ⟨[1, 2], 2, true, false, [5, 6]⟩).1.isOK
          = false ↔ (true : Bool) = false) ∧
      ((true : Bool) = true →
        awaitForwardResults (α := Nat) ⟨[1, 2], 2, true, false, [5, 6]⟩ =
          (StatusM.ok, [1, 2]))) :=
  ⟨awaitForwardResults_failure_iff_sync_failed ⟨[1, 2], 2, false, false, [5, 6]⟩,
   awaitForwardResults_failure_iff_sync_failed ⟨[1, 2], 2, true, false, [5, 6]⟩⟩

/-- C5: on every successful-path execution (the call returns `Status::OK()`),
the trace is: completed device barrier, then exactly one `SetForwardOutputs`,
then exactly one `WaitForBackwardInputs`, followed only by output bindings;
and the wait on the backward slot is the only operation in the trace that
suspends the executing thread on the rendezvous channel. -/
theorem yieldOp_successful_path_event_order {α : Type} [Inhabited α]
    (env : YieldEnv α)
    (h : (YieldOp.ComputeInternal env).2 = Outcome.ret StatusM.ok) :
    (∃ binds,
        (YieldOp.ComputeInternal env).1 =
          YieldEvent.deviceSync true ::
            YieldEvent.postForward StatusM.ok env.inputs ::
              YieldEvent.awaitBackward false env.backwardInputs :: binds ∧
          ∀ e ∈ binds, ∃ i v, e = YieldEvent.bindOutput i v) ∧
    (YieldOp.ComputeInternal env).1.countP YieldEvent.isSyncDone = 1 ∧
    (YieldOp.ComputeInternal env).1.countP YieldEvent.isPostForward = 1 ∧
    (YieldOp.ComputeInternal env).1.countP YieldEvent.isAwaitBackward = 1 ∧
    (YieldOp.ComputeInternal env).1.filter YieldEvent.blocksOnChannel =
      [YieldEvent.awaitBackward false env.backwardInputs] := by
  cases hs : env.syncOk
  · exact absurd h (by simp [YieldOp.ComputeInternal, hs])
  · cases ht : env.terminate
    · by_cases hl : env.backwardInputs.length = env.outputCount
      · refine ⟨⟨(List.range env.outputCount).map
            (fun i => .bindOutput i (env.backwardInputs.getD i default)),
            ?_, ?_⟩, ?_⟩
        · simp [YieldOp.ComputeInternal, hs, ht, hl]
        · intro e he
          simp only [List.mem_map, List.mem_range] at he
          obtain ⟨i, _, rfl⟩ := he
          exact ⟨i, _, rfl⟩
        · refine ⟨?_, ?_, ?_, ?_⟩ <;>
            · simp only [YieldOp.ComputeInternal, hs, ht, hl,
                Bool.false_eq_true, if_false, if_true, if_pos rfl,
                Bool.true_eq_false]
              simp [List.countP_append, List.countP_cons, List.countP_map,
                List.filter_append, List.filter_map, Function.comp,
                YieldEvent.isSyncDone, YieldEvent.isPostForward,
                YieldEvent.isAwaitBackward, YieldEvent.blocksOnChannel,
                List.countP_eq_zero, List.filter_eq_nil_iff]
      · exact absurd h (by simp [YieldOp.ComputeInternal, hs, ht, hl])
    · exact absurd h (by simp [YieldOp.ComputeInternal, hs, ht])

/-- Witness for C5 at a concrete successful execution. -/
theorem yieldOp_successful_path_event_order_witness :
    (∃ binds,
        (YieldOp.ComputeInternal (α := Nat) ⟨[1, 2], 2, true, false, [5, 6]⟩).1 =
          YieldEvent.deviceSync true ::
            YieldEvent.postForward StatusM.ok [1, 2] ::
              YieldEvent.awaitBackward false [5, 6] :: binds ∧
          ∀ e ∈ binds, ∃ i v, e = YieldEvent.bindOutput i v) ∧
    (YieldOp.ComputeInternal (α := Nat)
        ⟨[1, 2], 2, true, false, [5, 6]⟩).1.countP YieldEvent.isSyncDone = 1 ∧
    (YieldOp.ComputeInternal (α := Nat)
        ⟨[1, 2], 2, true, false, [5, 6]⟩).1.countP YieldEvent.isPostForward = 1 ∧
    (YieldOp.ComputeInternal (α := Nat)
        ⟨[1, 2], 2, true, false, [5, 6]⟩).1.countP YieldEvent.isAwaitBackward = 1 ∧
    (YieldOp.ComputeInternal (α := Nat)
        ⟨[1, 2], 2, true, false, [5, 6]⟩).1.filter YieldEvent.blocksOnChannel =
      [YieldEvent.awaitBackward false [5, 6]] :=
  yieldOp_successful_path_event_order ⟨[1, 2], 2, true, false, [5, 6]⟩ rfl

/-- C6: every execution that reaches the handoff (the device barrier
succeeded) posts exactly one forward batch, tagged with the success status,
whose payload is exactly the operator's ordered input snapshot — so its
length equals the input count and element `i` equals input `i` for every
`i`. -/
theorem yieldOp_posts_inputs_with_success_status {α : Type} [Inhabited α]
    (env : YieldEnv α) (hs : env.syncOk = true) :
    postedForward (YieldOp.ComputeInternal env).1 =
      [(StatusM.ok, env.inputs)] := by
  cases ht : env.terminate
  · by_cases hl : env.backwardInputs.length = env.outputCount
    · simp [YieldOp.ComputeInternal, postedForward, hs, ht, hl]
    · simp [YieldOp.ComputeInternal, postedForward, hs, ht, hl]
  · simp [YieldOp.ComputeInternal, postedForward, hs, ht]

/-- Witness for C6: a concrete execution posts `(OK, [1, 2])` exactly once. -/
theorem yieldOp_posts_inputs_with_success_status_witness :
    postedForward
        (YieldOp.ComputeInternal (α := Nat) ⟨[1, 2], 2, true, true, [5]⟩).1 =
      [(StatusM.ok, [1, 2])] :=
  yieldOp_posts_inputs_with_success_status ⟨[1, 2], 2, true, true, [5]⟩ rfl

/-- C7: a step that unwinds because `terminate = true` ends in an outcome
distinct from both success (`return Status::OK()`) and the returned-`Status`
failure mechanism that device/computation faults use (cf. the sync-failure
path): it is a thrown exception carrying the dedicated termination message,
not any returned `Status` at all, so the caller can tell the deliberate
teardown apart from a fault status. -/
theorem yieldOp_terminate_outcome_distinct {α : Type} [Inhabited α]
    (env : YieldEnv α) (hs : env.syncOk = true) (ht : env.terminate = true) :
    (YieldOp.ComputeInternal env).2 = Outcome.threw terminateMsg ∧
    (∀ s : StatusM, (YieldOp.ComputeInternal env).2 ≠ Outcome.ret s) := by
  have h2 : (YieldOp.ComputeInternal env).2 = Outcome.threw terminateMsg := by
    simp [YieldOp.ComputeInternal, hs, ht]
  exact ⟨h2, fun s hrs => by rw [h2] at hrs; exact Outcome.noConfusion hrs⟩

/-- Witness for C7 at a concrete terminated execution. -/
theorem yieldOp_terminate_outcome_distinct_witness :
    (YieldOp.ComputeInternal (α := Nat) ⟨[3], 1, true, true, []⟩).2 =
        Outcome.threw terminateMsg ∧
      (∀ s : StatusM,
        (YieldOp.ComputeInternal (α := Nat) ⟨[3], 1, true, true, []⟩).2 ≠
          Outcome.ret s) :=
  yieldOp_terminate_outcome_distinct ⟨[3], 1, true, true, []⟩ rfl rfl

/-! ## Claims about the ATen operator configuration registry -/

/-- C8: `ATenOperatorConfigs::GetConfig` returns (a pointer to) the stored
configuration exactly when the name is registered and `nullptr` otherwise;
every unregistered name yields the same bare miss — the result carries no
reason, so distinct unregistered (or otherwise malformed) names are
indistinguishable in the result. -/
theorem getConfig_some_iff_registered {I F B : Type}
    (r : ATenOperatorConfigs I F B) (n : String) :
    ((r.GetConfig n).isSome = true ↔ n ∈ r.configs.map Prod.fst) ∧
    (∀ c, r.GetConfig n = some c → (n, c) ∈ r.configs) ∧
    (∀ m₁ m₂, m₁ ∉ r.configs.map Prod.fst → m₂ ∉ r.configs.map Prod.fst →
      r.GetConfig m₁ = r.GetConfig m₂) := by
  refine ⟨lookup_isSome_iff_mem _ _, fun c h => lookup_mem h,
    fun m₁ m₂ h₁ h₂ => ?_⟩
  show r.configs.lookup m₁ = r.configs.lookup m₂
  rw [lookup_eq_none_of_not_mem h₁, lookup_eq_none_of_not_mem h₂]

/-- Witness for C8 on the sample registry, at a registered name. -/
theorem getConfig_some_iff_registered_witness :
    ((sampleRegistry.GetConfig "aten::embedding").isSome = true ↔
      "aten::embedding" ∈ sampleRegistry.configs.map Prod.fst) ∧
    (∀ c, sampleRegistry.GetConfig "aten::embedding" = some c →
      ("aten::embedding", c) ∈ sampleRegistry.configs) ∧
    (∀ m₁ m₂, m₁ ∉ sampleRegistry.configs.map Prod.fst →
      m₂ ∉ sampleRegistry.configs.map Prod.fst →
      sampleRegistry.GetConfig m₁ = sampleRegistry.GetConfig m₂) :=
  getConfig_some_iff_registered sampleRegistry "aten::embedding"

/-- C9: for every configuration, name and scalar type `T`:
`TryGetValue<T>` returns true and overwrites the out-parameter with the
stored default exactly when the default map for `T` contains the name;
otherwise it returns false and leaves the out-parameter unchanged; for any
`T` outside int/float/bool it returns false and leaves it unchanged. -/
theorem tryGetValue_defaults {I F B T : Type} (c : ATenOperatorConfig I F B)
    (name : String) (vi : I) (vf : F) (vb : B) (vt : T) :
    (((c.TryGetValueInt name vi).1 = true ↔
        name ∈ c.default_int_values.map Prod.fst) ∧
      (∀ d, c.default_int_values.lookup name = some d →
        c.TryGetValueInt name vi = (true, d)) ∧
      (name ∉ c.default_int_values.map Prod.fst →
        c.TryGetValueInt name vi = (false, vi))) ∧
    (((c.TryGetValueFloat name vf).1 = true ↔
        name ∈ c.default_float_values.map Prod.fst) ∧
      (∀ d, c.default_float_values.lookup name = some d →
        c.TryGetValueFloat name vf = (true, d)) ∧
      (name ∉ c.default_float_values.map Prod.fst →
        c.TryGetValueFloat name vf = (false, vf))) ∧
    (((c.TryGetValueBool name vb).1 = true ↔
        name ∈ c.default_bool_values.map Prod.fst) ∧
      (∀ d, c.default_bool_values.lookup name = some d →
        c.TryGetValueBool name vb = (true, d)) ∧
      (name ∉ c.default_bool_values.map Prod.fst →
        c.TryGetValueBool name vb = (false, vb))) ∧
    c.TryGetValueOther name vt = (false, vt) :=
  ⟨tryGet_triple _ _ _ _ rfl, tryGet_triple _ _ _ _ rfl,
   tryGet_triple _ _ _ _ rfl, rfl⟩

/-- Witness for C9 on the sample configuration at name `padding_idx`. -/
theorem tryGetValue_defaults_witness :
    (((sampleConfig.TryGetValueInt "padding_idx" 0).1 = true ↔
        "padding_idx" ∈ sampleConfig.default_int_values.map Prod.fst) ∧
      (∀ d, sampleConfig.default_int_values.lookup "padding_idx" = some d →
        sampleConfig.TryGetValueInt "padding_idx" 0 = (true, d)) ∧
      ("padding_idx" ∉ sampleConfig.default_int_values.map Prod.fst →
        sampleConfig.TryGetValueInt "padding_idx" 0 = (false, 0))) ∧
    (((sampleConfig.TryGetValueFloat "padding_idx" 0).1 = true ↔
        "padding_idx" ∈ sampleConfig.default_float_values.map Prod.fst) ∧
      (∀ d, sampleConfig.default_float_values.lookup "padding_idx" = some d →
        sampleConfig.TryGetValueFloat "padding_idx" 0 = (true, d)) ∧
      ("padding_idx" ∉ sampleConfig.default_float_values.map Prod.fst →
        sampleConfig.TryGetValueFloat "padding_idx" 0 = (false, 0))) ∧
    (((sampleConfig.TryGetValueBool "padding_idx" true).1 = true ↔
        "padding_idx" ∈ sampleConfig.default_bool_values.map Prod.fst) ∧
      (∀ d, sampleConfig.default_bool_values.lookup "padding_idx" = some d →
        sampleConfig.TryGetValueBool "padding_idx" true = (true, d)) ∧
      ("padding_idx" ∉ sampleConfig.default_bool_values.map Prod.fst →
        sampleConfig.TryGetValueBool "padding_idx" true = (false, true))) ∧
    sampleConfig.TryGetValueOther "padding_idx" () = (false, ()) :=
  tryGetValue_defaults sampleConfig "padding_idx" 0 0 true ()

/-- C10: for every configuration, name and array type `T` among
int/float/bool: `TryGetArrayValue<T>` returns true and leaves the caller's
vector equal to its prior contents followed by the stored default array (it
appends, via `back_inserter`, rather than replaces) exactly when a default
array of type `T` is stored for the name; otherwise it returns false and
leaves the vector unchanged. -/
theorem tryGetArrayValue_defaults {I F B : Type} (c : ATenOperatorConfig I F B)
    (name : String) (vi : List I) (vf : List F) (vb : List B) :
    (((c.TryGetArrayValueInt name vi).1 = true ↔
        name ∈ c.default_int_array_values.map Prod.fst) ∧
      (∀ arr, c.default_int_array_values.lookup name = some arr →
        c.TryGetArrayValueInt name vi = (true, vi ++ arr)) ∧
      (name ∉ c.default_int_array_values.map Prod.fst →
        c.TryGetArrayValueInt name vi = (false, vi))) ∧
    (((c.TryGetArrayValueFloat name vf).1 = true ↔
        name ∈ c.default_float_array_values.map Prod.fst) ∧
      (∀ arr, c.default_float_array_values.lookup name = some arr →
        c.TryGetArrayValueFloat name vf = (true, vf ++ arr)) ∧
      (name ∉ c.default_float_array_values.map Prod.fst →
        c.TryGetArrayValueFloat name vf = (false, vf))) ∧
    (((c.TryGetArrayValueBool name vb).1 = true ↔
        name ∈ c.default_bool_array_values.map Prod.fst) ∧
      (∀ arr, c.default_bool_array_values.lookup name = some arr →
        c.TryGetArrayValueBool name vb = (true, vb ++ arr)) ∧
      (name ∉ c.default_bool_array_values.map Prod.fst →
        c.TryGetArrayValueBool name vb = (false, vb))) :=
  ⟨tryGetArray_triple _ _ _ _ rfl, tryGetArray_triple _ _ _ _ rfl,
   tryGetArray_triple _ _ _ _ rfl⟩

/-- Witness for C10 on the sample configuration at name `output_size`, with a
non-empty prior vector showing the append. -/
theorem tryGetArrayValue_defaults_witness :
    (((sampleConfig.TryGetArrayValueInt "output_size" [9]).1 = true ↔
        "output_size" ∈ sampleConfig.default_int_array_values.map Prod.fst) ∧
      (∀ arr, sampleConfig.default_int_array_values.lookup "output_size" =
          some arr →
        sampleConfig.TryGetArrayValueInt "output_size" [9] =
          (true, [9] ++ arr)) ∧
      ("output_size" ∉ sampleConfig.default_int_array_values.map Prod.fst →
        sampleConfig.TryGetArrayValueInt "output_size" [9] = (false, [9]))) ∧
    (((sampleConfig.TryGetArrayValueFloat "output_size" [1]).1 = true ↔
        "output_size" ∈ sampleConfig.default_float_array_values.map Prod.fst) ∧
      (∀ arr, sampleConfig.default_float_array_values.lookup "output_size" =
          some arr →
        sampleConfig.TryGetArrayValueFloat "output_size" [1] =
          (true, [1] ++ arr)) ∧
      ("output_size" ∉ sampleConfig.default_float_array_values.map Prod.fst →
        sampleConfig.TryGetArrayValueFloat "output_size" [1] = (false, [1]))) ∧
    (((sampleConfig.TryGetArrayValueBool "output_size" [true]).1 = true ↔
        "output_size" ∈ sampleConfig.default_bool_array_values.map Prod.fst) ∧
      (∀ arr, sampleConfig.default_bool_array_values.lookup "output_size" =
          some arr →
        sampleConfig.TryGetArrayValueBool "output_size" [true] =
          (true, [true] ++ arr)) ∧
      ("output_size" ∉ sampleConfig.default_bool_array_values.map Prod.fst →
        sampleConfig.TryGetArrayValueBool "output_size" [true] =
          (false, [true]))) :=
  tryGetArrayValue_defaults sampleConfig "output_size" [9] [1] [true]

end OnnxRuntime
